import Mathlib

/-!
Verification of the EasyFEA core: prism shape functions (`fem/elems/_prism.py`)
and linear-elastic constitutive laws (`materials/_elastic.py`).

Shape functions are embedded as multivariate polynomials over ℚ in the three
reference coordinates r = X 0, s = X 1, t = X 2, translated term by term from
the Python lambdas.  The elastic laws are embedded over ℝ; matrices use the
Kelvin-Mandel convention of the source.
-/

open MvPolynomial

-- ------------------------------------------------------------------
-- PRISM6 shape functions (fem/elems/_prism.py, class PRISM6)
-- ------------------------------------------------------------------

namespace PRISM6

/-- The six basis polynomials of `PRISM6._N`, with r = X 0, s = X 1, t = X 2. -/
noncomputable def N : Fin 6 → MvPolynomial (Fin 3) ℚ
  | 0 => C (1/2 : ℚ) * ((X 2 - C 1) * (X 0 + X 1 - C 1))
  | 1 => C (-(1/2) : ℚ) * (X 0 * (X 2 - C 1))
  | 2 => C (-(1/2) : ℚ) * (X 1 * (X 2 - C 1))
  | 3 => C (-(1/2) : ℚ) * ((X 2 + C 1) * (X 0 + X 1 - C 1))
  | 4 => C (1/2 : ℚ) * (X 0 * (X 2 + C 1))
  | 5 => C (1/2 : ℚ) * (X 1 * (X 2 + C 1))

/-- The 6×3 derivative table of `PRISM6._dN`: entry (i, k) is the source's
hand-written formula for ∂N_i w.r.t. the k-th coordinate (order r, s, t). -/
noncomputable def dN : Fin 6 → Fin 3 → MvPolynomial (Fin 3) ℚ
  | 0, 0 => C (1/2 : ℚ) * X 2 - C (1/2)
  | 0, 1 => C (1/2 : ℚ) * X 2 - C (1/2)
  | 0, 2 => C (1/2 : ℚ) * X 0 + C (1/2) * X 1 - C (1/2)
  | 1, 0 => C (1/2 : ℚ) - C (1/2) * X 2
  | 1, 1 => 0
  | 1, 2 => C (-(1/2) : ℚ) * X 0
  | 2, 0 => 0
  | 2, 1 => C (1/2 : ℚ) - C (1/2) * X 2
  | 2, 2 => C (-(1/2) : ℚ) * X 1
  | 3, 0 => C (-(1/2) : ℚ) * X 2 - C (1/2)
  | 3, 1 => C (-(1/2) : ℚ) * X 2 - C (1/2)
  | 3, 2 => C (-(1/2) : ℚ) * X 0 - C (1/2) * X 1 + C (1/2)
  | 4, 0 => C (1/2 : ℚ) * X 2 + C (1/2)
  | 4, 1 => 0
  | 4, 2 => C (1/2 : ℚ) * X 0
  | 5, 0 => 0
  | 5, 1 => C (1/2 : ℚ) * X 2 + C (1/2)
  | 5, 2 => C (1/2 : ℚ) * X 1

lemma prism6_dN_eq_pderiv : ∀ (i : Fin 6) (k : Fin 3), pderiv k (N i) = dN i k := by
  intro i k
  fin_cases i <;> fin_cases k <;>
    simp [N, dN, pderiv_mul, pderiv_X, map_add, map_sub, pderiv_C] <;> ring

lemma prism6_sum_N_eq_one : ∀ r s t : ℚ, ∑ i, eval ![r, s, t] (N i) = 1 := by
  intro r s t
  simp [Fin.sum_univ_six, N]
  ring

end PRISM6

-- ------------------------------------------------------------------
-- PRISM15 shape functions (fem/elems/_prism.py, class PRISM15)
-- ------------------------------------------------------------------

namespace PRISM15

/-- Basis polynomial N1 of `PRISM15._N`, with r = X 0, s = X 1, t = X 2. -/
noncomputable def N0 : MvPolynomial (Fin 3) ℚ :=
  C (-(1/2) : ℚ) * ((X 2 - C 1) * (X 0 + X 1 - C 1) * (C 2 * X 0 + C 2 * X 1 + X 2))

/-- Basis polynomial N2 of `PRISM15._N`. -/
noncomputable def N1 : MvPolynomial (Fin 3) ℚ :=
  C (-(1/2) : ℚ) * (X 0 * (X 2 - C 1) * (C 2 * X 0 - X 2 - C 2))

/-- Basis polynomial N3 of `PRISM15._N`. -/
noncomputable def N2 : MvPolynomial (Fin 3) ℚ :=
  C (-(1/2) : ℚ) * (X 1 * (X 2 - C 1) * (C 2 * X 1 - X 2 - C 2))

/-- Basis polynomial N4 of `PRISM15._N`. -/
noncomputable def N3 : MvPolynomial (Fin 3) ℚ :=
  C (1/2 : ℚ) * ((X 2 + C 1) * (X 0 + X 1 - C 1) * (C 2 * X 0 + C 2 * X 1 - X 2))

/-- Basis polynomial N5 of `PRISM15._N`. -/
noncomputable def N4 : MvPolynomial (Fin 3) ℚ :=
  C (1/2 : ℚ) * (X 0 * (X 2 + C 1) * (C 2 * X 0 + X 2 - C 2))

/-- Basis polynomial N6 of `PRISM15._N`. -/
noncomputable def N5 : MvPolynomial (Fin 3) ℚ :=
  C (1/2 : ℚ) * (X 1 * (X 2 + C 1) * (C 2 * X 1 + X 2 - C 2))

/-- Basis polynomial N7 of `PRISM15._N`. -/
noncomputable def N6 : MvPolynomial (Fin 3) ℚ :=
  C (2 : ℚ) * X 0 * (X 2 - C 1) * (X 0 + X 1 - C 1)

/-- Basis polynomial N8 of `PRISM15._N`. -/
noncomputable def N7 : MvPolynomial (Fin 3) ℚ :=
  C (2 : ℚ) * X 1 * (X 2 - C 1) * (X 0 + X 1 - C 1)

/-- Basis polynomial N9 of `PRISM15._N`. -/
noncomputable def N8 : MvPolynomial (Fin 3) ℚ :=
  (X 2 - C 1) * (X 2 + C 1) * (X 0 + X 1 - C 1)

/-- Basis polynomial N10 of `PRISM15._N`. -/
noncomputable def N9 : MvPolynomial (Fin 3) ℚ :=
  C (-2 : ℚ) * X 0 * X 1 * (X 2 - C 1)

/-- Basis polynomial N11 of `PRISM15._N`. -/
noncomputable def N10 : MvPolynomial (Fin 3) ℚ :=
  -(X 0 * (X 2 - C 1) * (X 2 + C 1))

/-- Basis polynomial N12 of `PRISM15._N`. -/
noncomputable def N11 : MvPolynomial (Fin 3) ℚ :=
  -(X 1 * (X 2 - C 1) * (X 2 + C 1))

/-- Basis polynomial N13 of `PRISM15._N`. -/
noncomputable def N12 : MvPolynomial (Fin 3) ℚ :=
  C (-2 : ℚ) * X 0 * (X 2 + C 1) * (X 0 + X 1 - C 1)

/-- Basis polynomial N14 of `PRISM15._N`. -/
noncomputable def N13 : MvPolynomial (Fin 3) ℚ :=
  C (-2 : ℚ) * X 1 * (X 2 + C 1) * (X 0 + X 1 - C 1)

/-- Basis polynomial N15 of `PRISM15._N`. -/
noncomputable def N14 : MvPolynomial (Fin 3) ℚ :=
  C (2 : ℚ) * X 0 * X 1 * (X 2 + C 1)

/-- The fifteen basis polynomials of `PRISM15._N` assembled in node order. -/
noncomputable def N : Fin 15 → MvPolynomial (Fin 3) ℚ :=
  ![N0, N1, N2, N3, N4, N5, N6, N7, N8, N9, N10, N11, N12, N13, N14]

/-- Row dN1 of the derivative table of `PRISM15._dN`: entry k is the source's
hand-written formula for ∂N_1 w.r.t. the k-th coordinate (order r, s, t). -/
noncomputable def dN0 : Fin 3 → MvPolynomial (Fin 3) ℚ :=
  ![-((X 2 - C 1) * (X 0 + X 1 - C 1)) - C (1/2 : ℚ) * ((X 2 - C 1) * (C 2 * X 0 + C 2 * X 1 + X 2)),
    -((X 2 - C 1) * (X 0 + X 1 - C 1)) - C (1/2 : ℚ) * ((X 2 - C 1) * (C 2 * X 0 + C 2 * X 1 + X 2)),
    -(C (1/2 : ℚ) * ((X 2 - C 1) * (X 0 + X 1 - C 1))) - C (1/2 : ℚ) * ((X 0 + X 1 - C 1) * (C 2 * X 0 + C 2 * X 1 + X 2))]

/-- Row dN2 of the table. -/
noncomputable def dN1 : Fin 3 → MvPolynomial (Fin 3) ℚ :=
  ![-(X 0 * (X 2 - C 1)) - C (1/2 : ℚ) * ((X 2 - C 1) * (C 2 * X 0 - X 2 - C 2)),
    0,
    C (1/2 : ℚ) * (X 0 * (X 2 - C 1)) - C (1/2 : ℚ) * (X 0 * (C 2 * X 0 - X 2 - C 2))]

/-- Row dN3 of the table. -/
noncomputable def dN2 : Fin 3 → MvPolynomial (Fin 3) ℚ :=
  ![0,
    -(X 1 * (X 2 - C 1)) - C (1/2 : ℚ) * ((X 2 - C 1) * (C 2 * X 1 - X 2 - C 2)),
    C (1/2 : ℚ) * (X 1 * (X 2 - C 1)) - C (1/2 : ℚ) * (X 1 * (C 2 * X 1 - X 2 - C 2))]

/-- Row dN4 of the table. -/
noncomputable def dN3 : Fin 3 → MvPolynomial (Fin 3) ℚ :=
  ![(X 2 + C 1) * (X 0 + X 1 - C 1) + C (1/2 : ℚ) * ((X 2 + C 1) * (C 2 * X 0 + C 2 * X 1 - X 2)),
    (X 2 + C 1) * (X 0 + X 1 - C 1) + C (1/2 : ℚ) * ((X 2 + C 1) * (C 2 * X 0 + C 2 * X 1 - X 2)),
    -(C (1/2 : ℚ) * ((X 2 + C 1) * (X 0 + X 1 - C 1))) + C (1/2 : ℚ) * ((X 0 + X 1 - C 1) * (C 2 * X 0 + C 2 * X 1 - X 2))]

/-- Row dN5 of the table. -/
noncomputable def dN4 : Fin 3 → MvPolynomial (Fin 3) ℚ :=
  ![X 0 * (X 2 + C 1) + C (1/2 : ℚ) * ((X 2 + C 1) * (C 2 * X 0 + X 2 - C 2)),
    0,
    C (1/2 : ℚ) * (X 0 * (X 2 + C 1)) + C (1/2 : ℚ) * (X 0 * (C 2 * X 0 + X 2 - C 2))]

/-- Row dN6 of the table. -/
noncomputable def dN5 : Fin 3 → MvPolynomial (Fin 3) ℚ :=
  ![0,
    X 1 * (X 2 + C 1) + C (1/2 : ℚ) * ((X 2 + C 1) * (C 2 * X 1 + X 2 - C 2)),
    C (1/2 : ℚ) * (X 1 * (X 2 + C 1)) + C (1/2 : ℚ) * (X 1 * (C 2 * X 1 + X 2 - C 2))]

/-- Row dN7 of the table. -/
noncomputable def dN6 : Fin 3 → MvPolynomial (Fin 3) ℚ :=
  ![C (2 : ℚ) * X 0 * (X 2 - C 1) + C 2 * ((X 2 - C 1) * (X 0 + X 1 - C 1)),
    C (2 : ℚ) * X 0 * (X 2 - C 1),
    C (2 : ℚ) * X 0 * (X 0 + X 1 - C 1)]

/-- Row dN8 of the table. -/
noncomputable def dN7 : Fin 3 → MvPolynomial (Fin 3) ℚ :=
  ![C (2 : ℚ) * X 1 * (X 2 - C 1),
    C (2 : ℚ) * X 1 * (X 2 - C 1) + C 2 * ((X 2 - C 1) * (X 0 + X 1 - C 1)),
    C (2 : ℚ) * X 1 * (X 0 + X 1 - C 1)]

/-- Row dN9 of the table. -/
noncomputable def dN8 : Fin 3 → MvPolynomial (Fin 3) ℚ :=
  ![(X 2 - C 1) * (X 2 + C 1),
    (X 2 - C 1) * (X 2 + C 1),
    (X 2 - C 1) * (X 0 + X 1 - C 1) + (X 2 + C 1) * (X 0 + X 1 - C 1)]

/-- Row dN10 of the table. -/
noncomputable def dN9 : Fin 3 → MvPolynomial (Fin 3) ℚ :=
  ![C (-2 : ℚ) * X 1 * (X 2 - C 1),
    C (-2 : ℚ) * X 0 * (X 2 - C 1),
    C (-2 : ℚ) * X 0 * X 1]

/-- Row dN11 of the table. -/
noncomputable def dN10 : Fin 3 → MvPolynomial (Fin 3) ℚ :=
  ![-((X 2 - C 1) * (X 2 + C 1)),
    0,
    -(X 0 * (X 2 - C 1)) - X 0 * (X 2 + C 1)]

/-- Row dN12 of the table. -/
noncomputable def dN11 : Fin 3 → MvPolynomial (Fin 3) ℚ :=
  ![0,
    -((X 2 - C 1) * (X 2 + C 1)),
    -(X 1 * (X 2 - C 1)) - X 1 * (X 2 + C 1)]

/-- Row dN13 of the table. -/
noncomputable def dN12 : Fin 3 → MvPolynomial (Fin 3) ℚ :=
  ![C (-2 : ℚ) * X 0 * (X 2 + C 1) - C 2 * ((X 2 + C 1) * (X 0 + X 1 - C 1)),
    C (-2 : ℚ) * X 0 * (X 2 + C 1),
    C (-2 : ℚ) * X 0 * (X 0 + X 1 - C 1)]

/-- Row dN14 of the table. -/
noncomputable def dN13 : Fin 3 → MvPolynomial (Fin 3) ℚ :=
  ![C (-2 : ℚ) * X 1 * (X 2 + C 1),
    C (-2 : ℚ) * X 1 * (X 2 + C 1) - C 2 * ((X 2 + C 1) * (X 0 + X 1 - C 1)),
    C (-2 : ℚ) * X 1 * (X 0 + X 1 - C 1)]

/-- Row dN15 of the table. -/
noncomputable def dN14 : Fin 3 → MvPolynomial (Fin 3) ℚ :=
  ![C (2 : ℚ) * X 1 * (X 2 + C 1),
    C (2 : ℚ) * X 0 * (X 2 + C 1),
    C (2 : ℚ) * X 0 * X 1]

/-- The 15×3 derivative table of `PRISM15._dN` assembled in node order. -/
noncomputable def dN : Fin 15 → Fin 3 → MvPolynomial (Fin 3) ℚ :=
  ![dN0, dN1, dN2, dN3, dN4, dN5, dN6, dN7, dN8, dN9, dN10, dN11, dN12, dN13, dN14]

lemma prism15_row0 : ∀ k, pderiv k N0 = dN0 k := by
  intro k
  fin_cases k <;>
    simp [N0, dN0, pderiv_mul, pderiv_X, map_add, map_sub, map_neg, pderiv_C] <;>
    (try ring) <;>
    (apply MvPolynomial.funext; intro x; simp [eval_mul, eval_add, eval_sub, eval_pow]; ring)

lemma prism15_row1 : ∀ k, pderiv k N1 = dN1 k := by
  intro k
  fin_cases k <;>
    simp [N1, dN1, pderiv_mul, pderiv_X, map_add, map_sub, map_neg, pderiv_C] <;>
    (try ring) <;>
    (apply MvPolynomial.funext; intro x; simp [eval_mul, eval_add, eval_sub, eval_pow]; ring)

lemma prism15_row2 : ∀ k, pderiv k N2 = dN2 k := by
  intro k
  fin_cases k <;>
    simp [N2, dN2, pderiv_mul, pderiv_X, map_add, map_sub, map_neg, pderiv_C] <;>
    (try ring) <;>
    (apply MvPolynomial.funext; intro x; simp [eval_mul, eval_add, eval_sub, eval_pow]; ring)

lemma prism15_row3 : ∀ k, pderiv k N3 = dN3 k := by
  intro k
  fin_cases k <;>
    simp [N3, dN3, pderiv_mul, pderiv_X, map_add, map_sub, map_neg, pderiv_C] <;>
    (try ring) <;>
    (apply MvPolynomial.funext; intro x; simp [eval_mul, eval_add, eval_sub, eval_pow]; ring)

lemma prism15_row4 : ∀ k, pderiv k N4 = dN4 k := by
  intro k
  fin_cases k <;>
    simp [N4, dN4, pderiv_mul, pderiv_X, map_add, map_sub, map_neg, pderiv_C] <;>
    (try ring) <;>
    (apply MvPolynomial.funext; intro x; simp [eval_mul, eval_add, eval_sub, eval_pow]; ring)

lemma prism15_row5 : ∀ k, pderiv k N5 = dN5 k := by
  intro k
  fin_cases k <;>
    simp [N5, dN5, pderiv_mul, pderiv_X, map_add, map_sub, map_neg, pderiv_C] <;>
    (try ring) <;>
    (apply MvPolynomial.funext; intro x; simp [eval_mul, eval_add, eval_sub, eval_pow]; ring)

lemma prism15_row6 : ∀ k, pderiv k N6 = dN6 k := by
  intro k
  fin_cases k <;>
    simp [N6, dN6, pderiv_mul, pderiv_X, map_add, map_sub, map_neg, pderiv_C] <;>
    (try ring) <;>
    (apply MvPolynomial.funext; intro x; simp [eval_mul, eval_add, eval_sub, eval_pow]; ring)

lemma prism15_row7 : ∀ k, pderiv k N7 = dN7 k := by
  intro k
  fin_cases k <;>
    simp [N7, dN7, pderiv_mul, pderiv_X, map_add, map_sub, map_neg, pderiv_C] <;>
    (try ring) <;>
    (apply MvPolynomial.funext; intro x; simp [eval_mul, eval_add, eval_sub, eval_pow]; ring)

lemma prism15_row8 : ∀ k, pderiv k N8 = dN8 k := by
  intro k
  fin_cases k <;>
    simp [N8, dN8, pderiv_mul, pderiv_X, map_add, map_sub, map_neg, pderiv_C] <;>
    (try ring) <;>
    (apply MvPolynomial.funext; intro x; simp [eval_mul, eval_add, eval_sub, eval_pow]; ring)

lemma prism15_row9 : ∀ k, pderiv k N9 = dN9 k := by
  intro k
  fin_cases k <;>
    simp [N9, dN9, pderiv_mul, pderiv_X, map_add, map_sub, map_neg, pderiv_C] <;>
    (try ring) <;>
    (apply MvPolynomial.funext; intro x; simp [eval_mul, eval_add, eval_sub, eval_pow]; ring)

lemma prism15_row10 : ∀ k, pderiv k N10 = dN10 k := by
  intro k
  fin_cases k <;>
    simp [N10, dN10, pderiv_mul, pderiv_X, map_add, map_sub, map_neg, pderiv_C] <;>
    (try ring) <;>
    (apply MvPolynomial.funext; intro x; simp [eval_mul, eval_add, eval_sub, eval_pow]; ring)

lemma prism15_row11 : ∀ k, pderiv k N11 = dN11 k := by
  intro k
  fin_cases k <;>
    simp [N11, dN11, pderiv_mul, pderiv_X, map_add, map_sub, map_neg, pderiv_C] <;>
    (try ring) <;>
    (apply MvPolynomial.funext; intro x; simp [eval_mul, eval_add, eval_sub, eval_pow]; ring)

lemma prism15_row12 : ∀ k, pderiv k N12 = dN12 k := by
  intro k
  fin_cases k <;>
    simp [N12, dN12, pderiv_mul, pderiv_X, map_add, map_sub, map_neg, pderiv_C] <;>
    (try ring) <;>
    (apply MvPolynomial.funext; intro x; simp [eval_mul, eval_add, eval_sub, eval_pow]; ring)

lemma prism15_row13 : ∀ k, pderiv k N13 = dN13 k := by
  intro k
  fin_cases k <;>
    simp [N13, dN13, pderiv_mul, pderiv_X, map_add, map_sub, map_neg, pderiv_C] <;>
    (try ring) <;>
    (apply MvPolynomial.funext; intro x; simp [eval_mul, eval_add, eval_sub, eval_pow]; ring)

lemma prism15_row14 : ∀ k, pderiv k N14 = dN14 k := by
  intro k
  fin_cases k <;>
    simp [N14, dN14, pderiv_mul, pderiv_X, map_add, map_sub, map_neg, pderiv_C] <;>
    (try ring) <;>
    (apply MvPolynomial.funext; intro x; simp [eval_mul, eval_add, eval_sub, eval_pow]; ring)

set_option maxHeartbeats 1000000 in
lemma prism15_dN_eq_pderiv : ∀ (i : Fin 15) (k : Fin 3), pderiv k (N i) = dN i k := by
  intro i k
  fin_cases i <;>
    simp only [N, dN, Matrix.cons_val_zero, Matrix.cons_val_one, Matrix.head_cons,
      Matrix.cons_val_succ] <;>
    first
      | exact prism15_row0 k | exact prism15_row1 k | exact prism15_row2 k
      | exact prism15_row3 k | exact prism15_row4 k | exact prism15_row5 k
      | exact prism15_row6 k | exact prism15_row7 k | exact prism15_row8 k
      | exact prism15_row9 k | exact prism15_row10 k | exact prism15_row11 k
      | exact prism15_row12 k | exact prism15_row13 k | exact prism15_row14 k

set_option maxHeartbeats 1000000 in
lemma prism15_sum_N_eq_one : ∀ r s t : ℚ, ∑ i, eval ![r, s, t] (N i) = 1 := by
  intro r s t
  simp [Fin.sum_univ_succ, N, N0, N1, N2, N3, N4, N5, N6, N7, N8, N9, N10, N11, N12, N13, N14]
  ring

end PRISM15

-- ------------------------------------------------------------------
-- Claims C1, C8, C9
-- ------------------------------------------------------------------

/-- C1: for every node index i and coordinate index k, the (i,k) entry of the
derivative table returned by `PRISM6._dN` / `PRISM15._dN` equals the exact
partial derivative of the i-th basis polynomial of the corresponding `_N` with
respect to the k-th reference coordinate (order r, s, t); as a polynomial
identity this holds at every reference coordinate (r,s,t). -/
theorem prism_dN_is_exact_gradient_of_N :
    (∀ (i : Fin 6) (k : Fin 3), pderiv k (PRISM6.N i) = PRISM6.dN i k) ∧
    (∀ (i : Fin 15) (k : Fin 3), pderiv k (PRISM15.N i) = PRISM15.dN i k) :=
  ⟨PRISM6.prism6_dN_eq_pderiv, PRISM15.prism15_dN_eq_pderiv⟩

/-- C8: at every reference coordinate (r,s,t) the 6 basis values of
`PRISM6._N` sum to 1 and the 15 basis values of `PRISM15._N` sum to 1
(partition of unity, exact polynomial identity). -/
theorem prism_partition_of_unity :
    ∀ r s t : ℚ,
      (∑ i, eval ![r, s, t] (PRISM6.N i)) = 1 ∧
      (∑ i, eval ![r, s, t] (PRISM15.N i)) = 1 :=
  fun r s t => ⟨PRISM6.prism6_sum_N_eq_one r s t, PRISM15.prism15_sum_N_eq_one r s t⟩

/-- C9: the 6 basis functions of `PRISM6._N` evaluated at node 0's reference
coordinate (r=0, s=0, t=-1) give exactly the one-hot vector [1,0,0,0,0,0]. -/
theorem prism6_N_kronecker_at_node0 :
    ∀ i : Fin 6, eval ![0, 0, -1] (PRISM6.N i) = if i = 0 then 1 else 0 := by
  intro i
  fin_cases i <;> simp [PRISM6.N] <;> norm_num

-- ------------------------------------------------------------------
-- Elas_Isot (materials/_elastic.py): moduli and Kelvin-Mandel matrices
-- ------------------------------------------------------------------

namespace Elas_Isot

/-- `Elas_Isot.get_mu`: shear modulus mu = E/(2(1+v)). -/
noncomputable def get_mu (E v : ℝ) : ℝ := E / (2 * (1 + v))

/-- `Elas_Isot.get_lambda`: Lame parameter E*v/((1+v)(1-2v)), replaced by
E*v/(1-v^2) exactly when dim == 2 and planeStress holds (source branch). -/
noncomputable def get_lambda (dim : ℕ) (planeStress : Bool) (E v : ℝ) : ℝ :=
  if dim = 2 ∧ planeStress = true then E * v / (1 - v ^ 2)
  else E * v / ((1 + v) * (1 - 2 * v))

/-- `Elas_Isot.get_bulk`: bulk = lambda + 2*mu/dim. -/
noncomputable def get_bulk (dim : ℕ) (planeStress : Bool) (E v : ℝ) : ℝ :=
  get_lambda dim planeStress E v + 2 * get_mu E v / (dim : ℝ)

/-- The Voigt stiffness built by `Elas_Isot._Behavior` for dim = 2. -/
noncomputable def cVoigt2 (l mu : ℝ) : Matrix (Fin 3) (Fin 3) ℝ :=
  !![l + 2*mu, l, 0;
     l, l + 2*mu, 0;
     0, 0, mu]

/-- The Voigt stiffness built by `Elas_Isot._Behavior` for dim = 3. -/
noncomputable def cVoigt3 (l mu : ℝ) : Matrix (Fin 6) (Fin 6) ℝ :=
  !![l + 2*mu, l, l, 0, 0, 0;
     l, l + 2*mu, l, 0, 0, 0;
     l, l, l + 2*mu, 0, 0, 0;
     0, 0, 0, mu, 0, 0;
     0, 0, 0, 0, mu, 0;
     0, 0, 0, 0, 0, mu]

/-- Modelled from the spec: the Kelvin-Mandel coefficient vector for dim = 2
(the sqrt(2) shear scaling of `KelvinMandel_Matrix`, imported from `_utils`
which is outside the excerpt). -/
noncomputable def kmCoef2 : Fin 3 → ℝ := ![1, 1, Real.sqrt 2]

/-- Modelled from the spec: the Kelvin-Mandel coefficient vector for dim = 3. -/
noncomputable def kmCoef3 : Fin 6 → ℝ := ![1, 1, 1, Real.sqrt 2, Real.sqrt 2, Real.sqrt 2]

/-- Modelled from the spec: `KelvinMandel_Matrix` for dim = 2 scales shear rows
and columns by sqrt(2). -/
noncomputable def KelvinMandel_Matrix2 (M : Matrix (Fin 3) (Fin 3) ℝ) : Matrix (Fin 3) (Fin 3) ℝ :=
  Matrix.of fun i j => kmCoef2 i * kmCoef2 j * M i j

/-- Modelled from the spec: `KelvinMandel_Matrix` for dim = 3 scales shear rows
and columns by sqrt(2). -/
noncomputable def KelvinMandel_Matrix3 (M : Matrix (Fin 6) (Fin 6) ℝ) : Matrix (Fin 6) (Fin 6) ℝ :=
  Matrix.of fun i j => kmCoef3 i * kmCoef3 j * M i j

/-- The Kelvin-Mandel stiffness c returned by `Elas_Isot._Behavior` for dim = 3. -/
noncomputable def Behavior_C3 (E v : ℝ) : Matrix (Fin 6) (Fin 6) ℝ :=
  KelvinMandel_Matrix3 (cVoigt3 (get_lambda 3 false E v) (get_mu E v))

/-- The compliance s = np.linalg.inv(c) returned by `Elas_Isot._Behavior` for dim = 3. -/
noncomputable def Behavior_S3 (E v : ℝ) : Matrix (Fin 6) (Fin 6) ℝ := (Behavior_C3 E v)⁻¹

/-- The Kelvin-Mandel stiffness c returned by `Elas_Isot._Behavior` for dim = 2. -/
noncomputable def Behavior_C2 (E v : ℝ) (planeStress : Bool) : Matrix (Fin 3) (Fin 3) ℝ :=
  KelvinMandel_Matrix2 (cVoigt2 (get_lambda 2 planeStress E v) (get_mu E v))

/-- The compliance s = np.linalg.inv(c) returned by `Elas_Isot._Behavior` for dim = 2. -/
noncomputable def Behavior_S2 (E v : ℝ) (planeStress : Bool) : Matrix (Fin 3) (Fin 3) ℝ :=
  (Behavior_C2 E v planeStress)⁻¹

/-- Explicit form of the dim-3 Kelvin-Mandel stiffness: the Voigt shear diagonal
mu is scaled by sqrt(2)*sqrt(2) = 2. -/
noncomputable def C3mat (l mu : ℝ) : Matrix (Fin 6) (Fin 6) ℝ :=
  !![l + 2*mu, l, l, 0, 0, 0;
     l, l + 2*mu, l, 0, 0, 0;
     l, l, l + 2*mu, 0, 0, 0;
     0, 0, 0, 2*mu, 0, 0;
     0, 0, 0, 0, 2*mu, 0;
     0, 0, 0, 0, 0, 2*mu]

/-- Explicit inverse of `C3mat` (valid when mu and 3l+2mu are nonzero). -/
noncomputable def S3mat (l mu : ℝ) : Matrix (Fin 6) (Fin 6) ℝ :=
  !![(l+mu)/(mu*(3*l+2*mu)), -l/(2*mu*(3*l+2*mu)), -l/(2*mu*(3*l+2*mu)), 0, 0, 0;
     -l/(2*mu*(3*l+2*mu)), (l+mu)/(mu*(3*l+2*mu)), -l/(2*mu*(3*l+2*mu)), 0, 0, 0;
     -l/(2*mu*(3*l+2*mu)), -l/(2*mu*(3*l+2*mu)), (l+mu)/(mu*(3*l+2*mu)), 0, 0, 0;
     0, 0, 0, 1/(2*mu), 0, 0;
     0, 0, 0, 0, 1/(2*mu), 0;
     0, 0, 0, 0, 0, 1/(2*mu)]

/-- Explicit form of the dim-2 Kelvin-Mandel stiffness. -/
noncomputable def C2mat (l mu : ℝ) : Matrix (Fin 3) (Fin 3) ℝ :=
  !![l + 2*mu, l, 0;
     l, l + 2*mu, 0;
     0, 0, 2*mu]

/-- Explicit inverse of `C2mat` (valid when mu and l+mu are nonzero). -/
noncomputable def S2mat (l mu : ℝ) : Matrix (Fin 3) (Fin 3) ℝ :=
  !![(l+2*mu)/(4*mu*(l+mu)), -l/(4*mu*(l+mu)), 0;
     -l/(4*mu*(l+mu)), (l+2*mu)/(4*mu*(l+mu)), 0;
     0, 0, 1/(2*mu)]

lemma sqrt2_mul_sqrt2 : Real.sqrt 2 * Real.sqrt 2 = 2 :=
  Real.mul_self_sqrt (by norm_num)

lemma consVal6_2 {α : Type*} (x : α) (u : Fin 5 → α) : Matrix.vecCons x u (2 : Fin 6) = u 1 := rfl

lemma consVal6_3 {α : Type*} (x : α) (u : Fin 5 → α) : Matrix.vecCons x u (3 : Fin 6) = u 2 := rfl

lemma consVal6_4 {α : Type*} (x : α) (u : Fin 5 → α) : Matrix.vecCons x u (4 : Fin 6) = u 3 := rfl

lemma consVal6_5 {α : Type*} (x : α) (u : Fin 5 → α) : Matrix.vecCons x u (5 : Fin 6) = u 4 := rfl

lemma consVal5_2 {α : Type*} (x : α) (u : Fin 4 → α) : Matrix.vecCons x u (2 : Fin 5) = u 1 := rfl

lemma consVal5_3 {α : Type*} (x : α) (u : Fin 4 → α) : Matrix.vecCons x u (3 : Fin 5) = u 2 := rfl

lemma consVal5_4 {α : Type*} (x : α) (u : Fin 4 → α) : Matrix.vecCons x u (4 : Fin 5) = u 3 := rfl

lemma consVal4_2 {α : Type*} (x : α) (u : Fin 3 → α) : Matrix.vecCons x u (2 : Fin 4) = u 1 := rfl

lemma consVal4_3 {α : Type*} (x : α) (u : Fin 3 → α) : Matrix.vecCons x u (3 : Fin 4) = u 2 := rfl

lemma consVal3_2 {α : Type*} (x : α) (u : Fin 2 → α) : Matrix.vecCons x u (2 : Fin 3) = u 1 := rfl

set_option maxHeartbeats 1000000 in
lemma Behavior_C3_eq (E v : ℝ) :
    Behavior_C3 E v = C3mat (get_lambda 3 false E v) (get_mu E v) := by
  ext i j
  fin_cases i <;> fin_cases j <;>
    simp [Behavior_C3, KelvinMandel_Matrix3, kmCoef3, cVoigt3, C3mat,
      consVal6_2, consVal6_3, consVal6_4, consVal6_5, consVal5_2, consVal5_3,
      consVal5_4, consVal4_2, consVal4_3, consVal3_2, Matrix.vecHead, Matrix.vecTail,
      sqrt2_mul_sqrt2]

set_option maxHeartbeats 1000000 in
lemma Behavior_C2_eq (E v : ℝ) (ps : Bool) :
    Behavior_C2 E v ps = C2mat (get_lambda 2 ps E v) (get_mu E v) := by
  ext i j
  fin_cases i <;> fin_cases j <;>
    simp [Behavior_C2, KelvinMandel_Matrix2, kmCoef2, cVoigt2, C2mat,
      consVal6_2, consVal6_3, consVal6_4, consVal6_5, consVal5_2, consVal5_3,
      consVal5_4, consVal4_2, consVal4_3, consVal3_2, Matrix.vecHead, Matrix.vecTail,
      sqrt2_mul_sqrt2]

set_option maxHeartbeats 1000000 in
lemma C3mat_mul_S3mat (l mu : ℝ) (hmu : mu ≠ 0) (h3 : 3 * l + 2 * mu ≠ 0) :
    C3mat l mu * S3mat l mu = 1 := by
  ext i j
  fin_cases i <;> fin_cases j <;>
    (simp [C3mat, S3mat, Matrix.mul_apply, Fin.sum_univ_six, Matrix.one_apply,
       consVal6_2, consVal6_3, consVal6_4, consVal6_5, consVal5_2, consVal5_3,
      consVal5_4, consVal4_2, consVal4_3, consVal3_2, Matrix.vecHead, Matrix.vecTail]
     <;> (try field_simp) <;> (try ring))

set_option maxHeartbeats 1000000 in
lemma C2mat_mul_S2mat (l mu : ℝ) (hmu : mu ≠ 0) (hlm : l + mu ≠ 0) :
    C2mat l mu * S2mat l mu = 1 := by
  ext i j
  fin_cases i <;> fin_cases j <;>
    (simp [C2mat, S2mat, Matrix.mul_apply, Fin.sum_univ_three, Matrix.one_apply,
       consVal6_2, consVal6_3, consVal6_4, consVal6_5, consVal5_2, consVal5_3,
      consVal5_4, consVal4_2, consVal4_3, consVal3_2, Matrix.vecHead, Matrix.vecTail]
     <;> (try field_simp) <;> (try ring))

lemma mu_ne_zero (E v : ℝ) (hE : 0 < E) (hv1 : -1 < v) : get_mu E v ≠ 0 := by
  have h1 : (0:ℝ) < 1 + v := by linarith
  have : 0 < get_mu E v := div_pos hE (by linarith)
  linarith

lemma three_lambda_add_two_mu (E v : ℝ) (hv1 : -1 < v) (hv2 : v < 1/2) :
    3 * get_lambda 3 false E v + 2 * get_mu E v = E / (1 - 2*v) := by
  have h1 : (0:ℝ) < 1 + v := by linarith
  have h2 : (0:ℝ) < 1 - 2*v := by linarith
  simp only [get_lambda, get_mu]
  rw [if_neg (by simp)]
  field_simp
  ring

lemma lambda2_false_add_mu (E v : ℝ) (hv1 : -1 < v) (hv2 : v < 1/2) :
    get_lambda 2 false E v + get_mu E v = E / (2 * (1 + v) * (1 - 2*v)) := by
  have h1 : (0:ℝ) < 1 + v := by linarith
  have h2 : (0:ℝ) < 1 - 2*v := by linarith
  simp only [get_lambda, get_mu]
  rw [if_neg (by simp)]
  field_simp
  ring

lemma lambda2_true_add_mu (E v : ℝ) (hv1 : -1 < v) (hv2 : v < 1/2) :
    get_lambda 2 true E v + get_mu E v = E / (2 * (1 - v)) := by
  have h1 : (0:ℝ) < 1 + v := by linarith
  have h2 : (0:ℝ) < 1 - v := by linarith
  have h3 : (1:ℝ) - v^2 ≠ 0 := by nlinarith
  simp only [get_lambda, get_mu]
  rw [if_pos (by simp)]
  field_simp
  ring

end Elas_Isot

namespace Elas_Isot

lemma three_l_two_mu_ne (E v : ℝ) (hE : 0 < E) (hv1 : -1 < v) (hv2 : v < 1/2) :
    3 * get_lambda 3 false E v + 2 * get_mu E v ≠ 0 := by
  rw [three_lambda_add_two_mu E v hv1 hv2]
  have h2 : (0:ℝ) < 1 - 2*v := by linarith
  exact ne_of_gt (div_pos hE h2)

lemma lambda2_add_mu_ne (E v : ℝ) (ps : Bool) (hE : 0 < E) (hv1 : -1 < v) (hv2 : v < 1/2) :
    get_lambda 2 ps E v + get_mu E v ≠ 0 := by
  have h1 : (0:ℝ) < 1 + v := by linarith
  have h2 : (0:ℝ) < 1 - 2*v := by linarith
  cases ps with
  | false =>
    rw [lambda2_false_add_mu E v hv1 hv2]
    exact ne_of_gt (div_pos hE (by nlinarith [mul_pos h1 h2]))
  | true =>
    rw [lambda2_true_add_mu E v hv1 hv2]
    have h3 : (0:ℝ) < 1 - v := by linarith
    exact ne_of_gt (div_pos hE (by nlinarith))

lemma S3_eq (E v : ℝ) (hE : 0 < E) (hv1 : -1 < v) (hv2 : v < 1/2) :
    Behavior_S3 E v = S3mat (get_lambda 3 false E v) (get_mu E v) := by
  rw [Behavior_S3, Behavior_C3_eq]
  exact Matrix.inv_eq_right_inv
    (C3mat_mul_S3mat _ _ (mu_ne_zero E v hE hv1) (three_l_two_mu_ne E v hE hv1 hv2))

lemma S2_eq (E v : ℝ) (ps : Bool) (hE : 0 < E) (hv1 : -1 < v) (hv2 : v < 1/2) :
    Behavior_S2 E v ps = S2mat (get_lambda 2 ps E v) (get_mu E v) := by
  rw [Behavior_S2, Behavior_C2_eq]
  exact Matrix.inv_eq_right_inv
    (C2mat_mul_S2mat _ _ (mu_ne_zero E v hE hv1) (lambda2_add_mu_ne E v ps hE hv1 hv2))

end Elas_Isot

/-- C2: for dim in 2, 3 and admissible scalar parameters (E > 0,
-1 < v < 1/2), the stiffness c and the compliance s = np.linalg.inv(c)
produced by `Elas_Isot._Behavior` are exact mutual inverses (hence S @ C is
the identity, in particular within any tolerance); for v = 1/2 the lambda
denominator (1+v)(1-2v) vanishes, so no matrices are produced there. -/
theorem elasIsot_S_C_mutual_inverse (E v : ℝ) (hE : 0 < E) (hv1 : -1 < v) (hv2 : v < 1/2) :
    Elas_Isot.Behavior_S3 E v * Elas_Isot.Behavior_C3 E v = 1 ∧
    Elas_Isot.Behavior_C3 E v * Elas_Isot.Behavior_S3 E v = 1 ∧
    ∀ ps : Bool,
      Elas_Isot.Behavior_S2 E v ps * Elas_Isot.Behavior_C2 E v ps = 1 ∧
      Elas_Isot.Behavior_C2 E v ps * Elas_Isot.Behavior_S2 E v ps = 1 := by
  have hCS3 : Elas_Isot.Behavior_C3 E v * Elas_Isot.Behavior_S3 E v = 1 := by
    rw [Elas_Isot.S3_eq E v hE hv1 hv2, Elas_Isot.Behavior_C3_eq]
    exact Elas_Isot.C3mat_mul_S3mat _ _ (Elas_Isot.mu_ne_zero E v hE hv1)
      (Elas_Isot.three_l_two_mu_ne E v hE hv1 hv2)
  refine ⟨Matrix.mul_eq_one_comm.mp hCS3, hCS3, ?_⟩
  intro ps
  have hCS2 : Elas_Isot.Behavior_C2 E v ps * Elas_Isot.Behavior_S2 E v ps = 1 := by
    rw [Elas_Isot.S2_eq E v ps hE hv1 hv2, Elas_Isot.Behavior_C2_eq]
    exact Elas_Isot.C2mat_mul_S2mat _ _ (Elas_Isot.mu_ne_zero E v hE hv1)
      (Elas_Isot.lambda2_add_mu_ne E v ps hE hv1 hv2)
  exact ⟨Matrix.mul_eq_one_comm.mp hCS2, hCS2⟩

/-- C2 witness: the mutual-inverse theorem applied at E = 210000, v = 0.3. -/
theorem elasIsot_S_C_mutual_inverse_witness :
    (0:ℝ) < 210000 ∧ (-1:ℝ) < 0.3 ∧ (0.3:ℝ) < 1/2 ∧
      (Elas_Isot.Behavior_S3 210000 0.3 * Elas_Isot.Behavior_C3 210000 0.3 = 1 ∧
       Elas_Isot.Behavior_C3 210000 0.3 * Elas_Isot.Behavior_S3 210000 0.3 = 1 ∧
       ∀ ps : Bool,
         Elas_Isot.Behavior_S2 210000 0.3 ps * Elas_Isot.Behavior_C2 210000 0.3 ps = 1 ∧
         Elas_Isot.Behavior_C2 210000 0.3 ps * Elas_Isot.Behavior_S2 210000 0.3 ps = 1) :=
  ⟨by norm_num, by norm_num, by norm_num,
   elasIsot_S_C_mutual_inverse 210000 0.3 (by norm_num) (by norm_num) (by norm_num)⟩

/-- C3: get_mu is E/(2(1+v)); get_lambda is Ev/((1+v)(1-2v)) except in the 2D
plane-stress case where it is Ev/(1-v^2); get_bulk is lambda + 2*mu/dim; and
for E = 210000, v = 0.3: mu = 80769.23 (±0.01), lambda = 121153.85 (±0.01),
and the (0,0) stiffness entry is lambda + 2*mu = 282692.3 (±0.1). -/
theorem elasIsot_moduli_formulas_and_values :
    (∀ E v : ℝ, Elas_Isot.get_mu E v = E / (2 * (1 + v))) ∧
    (∀ (ps : Bool) (E v : ℝ),
        Elas_Isot.get_lambda 3 ps E v = E * v / ((1 + v) * (1 - 2*v))) ∧
    (∀ E v : ℝ, Elas_Isot.get_lambda 2 true E v = E * v / (1 - v^2)) ∧
    (∀ E v : ℝ, Elas_Isot.get_lambda 2 false E v = E * v / ((1 + v) * (1 - 2*v))) ∧
    (∀ (dim : ℕ) (ps : Bool) (E v : ℝ),
        Elas_Isot.get_bulk dim ps E v =
          Elas_Isot.get_lambda dim ps E v + 2 * Elas_Isot.get_mu E v / dim) ∧
    |Elas_Isot.get_mu 210000 0.3 - 80769.23| ≤ 0.01 ∧
    |Elas_Isot.get_lambda 3 false 210000 0.3 - 121153.85| ≤ 0.01 ∧
    Elas_Isot.Behavior_C3 210000 0.3 0 0 =
      Elas_Isot.get_lambda 3 false 210000 0.3 + 2 * Elas_Isot.get_mu 210000 0.3 ∧
    |Elas_Isot.Behavior_C3 210000 0.3 0 0 - 282692.3| ≤ 0.1 := by
  have hC00 : Elas_Isot.Behavior_C3 210000 0.3 0 0 =
      Elas_Isot.get_lambda 3 false 210000 0.3 + 2 * Elas_Isot.get_mu 210000 0.3 := by
    rw [Elas_Isot.Behavior_C3_eq]
    simp [Elas_Isot.C3mat]
  refine ⟨fun E v => rfl, ?_, ?_, ?_, fun dim ps E v => rfl, ?_, ?_, hC00, ?_⟩
  · intro ps E v
    simp [Elas_Isot.get_lambda]
  · intro E v
    simp [Elas_Isot.get_lambda]
  · intro E v
    simp [Elas_Isot.get_lambda]
  · rw [abs_le]
    constructor <;> norm_num [Elas_Isot.get_mu]
  · rw [abs_le]
    constructor <;> norm_num [Elas_Isot.get_lambda]
  · rw [hC00, abs_le]
    constructor <;> norm_num [Elas_Isot.get_lambda, Elas_Isot.get_mu]

-- ------------------------------------------------------------------
-- Elas_Isot.Walpole_Decomposition
-- ------------------------------------------------------------------

namespace Elas_Isot

/-- `Ivect = [1,1,1,0,0,0]` from `Elas_Isot.Walpole_Decomposition`. -/
noncomputable def Ivect : Fin 6 → ℝ := ![1, 1, 1, 0, 0, 0]

/-- Modelled from the spec: `Tensor_Product` (imported from `_utils`, outside
the excerpt) of two vectors is their outer product. -/
noncomputable def Tensor_Product (a b : Fin 6 → ℝ) : Matrix (Fin 6) (Fin 6) ℝ :=
  Matrix.of fun i j => a i * b j

/-- The hydrostatic projector E1 = (1/3) Ivect ⊗ Ivect of `Walpole_Decomposition`. -/
noncomputable def walpoleE1 : Matrix (Fin 6) (Fin 6) ℝ :=
  (1/3 : ℝ) • Tensor_Product Ivect Ivect

/-- The complementary projector E2 = Isym - E1 of `Walpole_Decomposition`. -/
noncomputable def walpoleE2 : Matrix (Fin 6) (Fin 6) ℝ := 1 - walpoleE1

/-- The coefficients ci = (bulk, mu) returned by `Walpole_Decomposition`. -/
noncomputable def Walpole_ci (dim : ℕ) (ps : Bool) (E v : ℝ) : Fin 2 → ℝ :=
  ![get_bulk dim ps E v, get_mu E v]

/-- The tensors Ei = (3*E1, 2*E2) returned by `Walpole_Decomposition`. -/
noncomputable def Walpole_Ei : Fin 2 → Matrix (Fin 6) (Fin 6) ℝ :=
  ![(3:ℝ) • walpoleE1, (2:ℝ) • walpoleE2]

set_option maxHeartbeats 1000000 in
lemma walpole_identity (ps : Bool) (E v : ℝ) :
    (3 * get_bulk 3 ps E v) • walpoleE1 + (2 * get_mu E v) • walpoleE2 =
      Behavior_C3 E v := by
  rw [Behavior_C3_eq]
  have hl : get_lambda 3 ps E v = get_lambda 3 false E v := by simp [get_lambda]
  ext i j
  fin_cases i <;> fin_cases j <;>
    (simp [get_bulk, hl, walpoleE1, walpoleE2, Tensor_Product, Ivect, C3mat,
       Matrix.smul_apply, Matrix.sub_apply, Matrix.one_apply,
       consVal6_2, consVal6_3, consVal6_4, consVal6_5, consVal5_2, consVal5_3,
       consVal5_4, consVal4_2, consVal4_3, consVal3_2, Matrix.vecHead, Matrix.vecTail]
     <;> push_cast <;> ring)

/-- A numpy 2-D array: a shape together with an entry function (entries outside
the shape are irrelevant). -/
structure NpMat where
  rows : ℕ
  cols : ℕ
  entry : ℕ → ℕ → ℝ

/-- Elementwise numpy subtraction of two 2-D arrays of the given shapes:
defined exactly when the shapes match; numpy raises a broadcast ValueError
otherwise (modelled as none). -/
noncomputable def npSub (A B : NpMat) : Option NpMat :=
  if A.rows = B.rows ∧ A.cols = B.cols then
    some ⟨A.rows, A.cols, fun i j => A.entry i j - B.entry i j⟩
  else none

/-- A square Lean matrix viewed as a numpy array. -/
noncomputable def toNp {n : ℕ} (M : Matrix (Fin n) (Fin n) ℝ) : NpMat :=
  ⟨n, n, fun i j => if h : i < n ∧ j < n then M ⟨i, h.1⟩ ⟨j, h.2⟩ else 0⟩

/-- All in-shape entries vanish: the exact-arithmetic form of the self-check
`norm((3*c1*E1 + 2*c2*E2) - C)/norm(C) <= 1e-12` of `Walpole_Decomposition`. -/
def NpMat.isZero (M : NpMat) : Prop :=
  ∀ i j, i < M.rows → j < M.cols → M.entry i j = 0

open Classical in
/-- `Elas_Isot.Walpole_Decomposition` for a non-heterogeneous instance of the
given dim: builds ci = (bulk, mu) and Ei = (3*E1, 2*E2), self-verifies
3*c1*E1 + 2*c2*E2 against the instance's stiffness C (3×3 for dim = 2, 6×6
for dim = 3) and only then returns; a failed subtraction (numpy shape
mismatch) or a failed verification is an exception, modelled as none. -/
noncomputable def Walpole_Decomposition (dim : ℕ) (ps : Bool) (E v : ℝ) :
    Option ((Fin 2 → ℝ) × (Fin 2 → Matrix (Fin 6) (Fin 6) ℝ)) :=
  let c1 := get_bulk dim ps E v
  let c2 := get_mu E v
  let recon := (3 * c1) • walpoleE1 + (2 * c2) • walpoleE2
  let instC : NpMat := if dim = 2 then toNp (Behavior_C2 E v ps) else toNp (Behavior_C3 E v)
  match npSub (toNp recon) instC with
  | none => none
  | some d => if d.isZero then some (Walpole_ci dim ps E v, Walpole_Ei) else none

end Elas_Isot

/-- C5 counterexample: for a 2D (dim = 2) scalar-parameter instance with
admissible E = 210000, v = 0.3, `Walpole_Decomposition` does not return a
decomposition: its self-check subtracts the instance's 3×3 stiffness from the
6×6 reconstruction, which is a numpy broadcast error. -/
theorem elasIsot_walpole_2D_fails :
    Elas_Isot.Walpole_Decomposition 2 true 210000 0.3 = none := by
  unfold Elas_Isot.Walpole_Decomposition
  simp [Elas_Isot.npSub, Elas_Isot.toNp]

/-- C5 amended: for every 3D (dim = 3) non-heterogeneous instance,
`Walpole_Decomposition` passes its self-check and returns ci = (bulk, mu) and
Ei = (3*E1, 2*E2) with E1 = (1/3)(I⊗I) and E2 = Identity - E1, and
sum over k of ci[k] • Ei[k] equals the 6×6 stiffness C exactly. -/
theorem elasIsot_walpole_3D_reconstruction :
    ∀ (ps : Bool) (E v : ℝ),
      Elas_Isot.Walpole_Decomposition 3 ps E v =
        some (Elas_Isot.Walpole_ci 3 ps E v, Elas_Isot.Walpole_Ei) ∧
      ∑ k, Elas_Isot.Walpole_ci 3 ps E v k • Elas_Isot.Walpole_Ei k =
        Elas_Isot.Behavior_C3 E v := by
  intro ps E v
  have hid := Elas_Isot.walpole_identity ps E v
  have hsum : ∑ k, Elas_Isot.Walpole_ci 3 ps E v k • Elas_Isot.Walpole_Ei k =
      Elas_Isot.Behavior_C3 E v := by
    rw [Fin.sum_univ_two, ← hid]
    simp [Elas_Isot.Walpole_ci, Elas_Isot.Walpole_Ei, smul_smul, mul_comm]
  refine ⟨?_, hsum⟩
  unfold Elas_Isot.Walpole_Decomposition
  dsimp only
  rw [hid, if_neg (by norm_num : ¬(3 = 2))]
  have hz0 : ∀ (r c : ℕ), (Elas_Isot.NpMat.mk r c fun i j => (0:ℝ)).isZero :=
    fun r c i j hi hj => rfl
  simp [Elas_Isot.npSub, hz0]

-- ------------------------------------------------------------------
-- Elas_IsotTrans (materials/_elastic.py): 2D reduction of _Behavior
-- ------------------------------------------------------------------

namespace Elas_IsotTrans

/-- `Elas_IsotTrans.Gt`: transverse shear modulus Et/(2(1+vt)). -/
noncomputable def Gt (Et vt : ℝ) : ℝ := Et / (2 * (1 + vt))

/-- `Elas_IsotTrans.kt`: Torquato's transverse modulus
El*Et/((2(1-vt)El) - (4 vl² Et)). -/
noncomputable def kt (El Et vl vt : ℝ) : ℝ :=
  El * Et / ((2 * (1 - vt) * El) - (4 * vl^2 * Et))

/-- The material-frame Mandel compliance `material_sM` of `Elas_IsotTrans._Behavior`. -/
noncomputable def material_sM (El Et Gl vl vt : ℝ) : Matrix (Fin 6) (Fin 6) ℝ :=
  !![1/El, -vl/El, -vl/El, 0, 0, 0;
     -vl/El, 1/Et, -vt/Et, 0, 0, 0;
     -vl/El, -vt/Et, 1/Et, 0, 0, 0;
     0, 0, 0, 1/(2 * Gt Et vt), 0, 0;
     0, 0, 0, 0, 1/(2*Gl), 0;
     0, 0, 0, 0, 0, 1/(2*Gl)]

/-- The material-frame Mandel stiffness `material_cM` of `Elas_IsotTrans._Behavior`. -/
noncomputable def material_cM (El Et Gl vl vt : ℝ) : Matrix (Fin 6) (Fin 6) ℝ :=
  !![El + 4 * vl^2 * kt El Et vl vt, 2 * kt El Et vl vt * vl, 2 * kt El Et vl vt * vl, 0, 0, 0;
     2 * kt El Et vl vt * vl, kt El Et vl vt + Gt Et vt, kt El Et vl vt - Gt Et vt, 0, 0, 0;
     2 * kt El Et vl vt * vl, kt El Et vl vt - Gt Et vt, kt El Et vl vt + Gt Et vt, 0, 0, 0;
     0, 0, 0, 2 * Gt Et vt, 0, 0;
     0, 0, 0, 0, 2*Gl, 0;
     0, 0, 0, 0, 0, 2*Gl]

/-- The Kelvin-Mandel index selection x = [0,1,5] of the 2D reduction. -/
def idx2D : Fin 3 → Fin 6 := ![0, 1, 5]

/-- Restriction of a 6×6 matrix to rows and columns [0,1,5] (`M[x,:][:,x]`). -/
def restrict2D (M : Matrix (Fin 6) (Fin 6) ℝ) : Matrix (Fin 3) (Fin 3) ℝ :=
  Matrix.of fun i j => M (idx2D i) (idx2D j)

/-- The 2D branch of `Elas_IsotTrans._Behavior` (dim = 2), parametric in the
global-frame rotation R (the external `Apply_Pmat` with
`Get_Pmat(axis_l, axis_t)` from `_utils`, treated abstractly): rotates the
material-frame matrices, then under plane stress restricts the rotated
compliance to [0,1,5] and inverts it for the stiffness, and under plane strain
restricts the rotated stiffness and inverts it for the compliance;
returns (c, s). -/
noncomputable def Behavior2D (R : Matrix (Fin 6) (Fin 6) ℝ → Matrix (Fin 6) (Fin 6) ℝ)
    (El Et Gl vl vt : ℝ) (planeStress : Bool) :
    Matrix (Fin 3) (Fin 3) ℝ × Matrix (Fin 3) (Fin 3) ℝ :=
  let global_sM := R (material_sM El Et Gl vl vt)
  let global_cM := R (material_cM El Et Gl vl vt)
  if planeStress = true then
    let s := restrict2D global_sM
    (s⁻¹, s)
  else
    let c := restrict2D global_cM
    (c, c⁻¹)

end Elas_IsotTrans

/-- C4: for every 2D Elas_IsotTrans instance (arbitrary rotation R and
parameters): under plane stress the returned compliance S is the [0,1,5]
restriction of the rotated 6×6 global compliance, and the returned C is the
matrix inverse of that restricted S (so their products are the identity
whenever the restriction is invertible); under plane strain the returned
stiffness C is the [0,1,5] restriction of the rotated 6×6 global stiffness,
and the returned S is its matrix inverse. -/
theorem elasIsotTrans_2D_reduction
    (R : Matrix (Fin 6) (Fin 6) ℝ → Matrix (Fin 6) (Fin 6) ℝ)
    (El Et Gl vl vt : ℝ)
    (hS : IsUnit (Elas_IsotTrans.restrict2D (R (Elas_IsotTrans.material_sM El Et Gl vl vt))).det)
    (hC : IsUnit (Elas_IsotTrans.restrict2D (R (Elas_IsotTrans.material_cM El Et Gl vl vt))).det) :
    (Elas_IsotTrans.Behavior2D R El Et Gl vl vt true).2 =
        Elas_IsotTrans.restrict2D (R (Elas_IsotTrans.material_sM El Et Gl vl vt)) ∧
    (Elas_IsotTrans.Behavior2D R El Et Gl vl vt true).1 =
        (Elas_IsotTrans.restrict2D (R (Elas_IsotTrans.material_sM El Et Gl vl vt)))⁻¹ ∧
    (Elas_IsotTrans.Behavior2D R El Et Gl vl vt true).1 *
        (Elas_IsotTrans.Behavior2D R El Et Gl vl vt true).2 = 1 ∧
    (Elas_IsotTrans.Behavior2D R El Et Gl vl vt true).2 *
        (Elas_IsotTrans.Behavior2D R El Et Gl vl vt true).1 = 1 ∧
    (Elas_IsotTrans.Behavior2D R El Et Gl vl vt false).1 =
        Elas_IsotTrans.restrict2D (R (Elas_IsotTrans.material_cM El Et Gl vl vt)) ∧
    (Elas_IsotTrans.Behavior2D R El Et Gl vl vt false).2 =
        (Elas_IsotTrans.restrict2D (R (Elas_IsotTrans.material_cM El Et Gl vl vt)))⁻¹ ∧
    (Elas_IsotTrans.Behavior2D R El Et Gl vl vt false).1 *
        (Elas_IsotTrans.Behavior2D R El Et Gl vl vt false).2 = 1 ∧
    (Elas_IsotTrans.Behavior2D R El Et Gl vl vt false).2 *
        (Elas_IsotTrans.Behavior2D R El Et Gl vl vt false).1 = 1 := by
  have hb1 : Elas_IsotTrans.Behavior2D R El Et Gl vl vt true =
      ((Elas_IsotTrans.restrict2D (R (Elas_IsotTrans.material_sM El Et Gl vl vt)))⁻¹,
       Elas_IsotTrans.restrict2D (R (Elas_IsotTrans.material_sM El Et Gl vl vt))) := rfl
  have hb2 : Elas_IsotTrans.Behavior2D R El Et Gl vl vt false =
      (Elas_IsotTrans.restrict2D (R (Elas_IsotTrans.material_cM El Et Gl vl vt)),
       (Elas_IsotTrans.restrict2D (R (Elas_IsotTrans.material_cM El Et Gl vl vt)))⁻¹) := rfl
  rw [hb1, hb2]
  exact ⟨rfl, rfl, Matrix.nonsing_inv_mul _ hS, Matrix.mul_nonsing_inv _ hS,
    rfl, rfl, Matrix.mul_nonsing_inv _ hC, Matrix.nonsing_inv_mul _ hC⟩

/-- C4 witness: the reduction theorem applied with the identity rotation and
El = Et = Gl = 1, vl = vt = 0, where both restricted matrices are invertible
diagonal matrices. -/
theorem elasIsotTrans_2D_reduction_witness :
    IsUnit (Elas_IsotTrans.restrict2D (id (Elas_IsotTrans.material_sM 1 1 1 0 0))).det ∧
    IsUnit (Elas_IsotTrans.restrict2D (id (Elas_IsotTrans.material_cM 1 1 1 0 0))).det ∧
    ((Elas_IsotTrans.Behavior2D id 1 1 1 0 0 true).2 =
        Elas_IsotTrans.restrict2D (id (Elas_IsotTrans.material_sM 1 1 1 0 0)) ∧
     (Elas_IsotTrans.Behavior2D id 1 1 1 0 0 true).1 =
        (Elas_IsotTrans.restrict2D (id (Elas_IsotTrans.material_sM 1 1 1 0 0)))⁻¹ ∧
     (Elas_IsotTrans.Behavior2D id 1 1 1 0 0 true).1 *
        (Elas_IsotTrans.Behavior2D id 1 1 1 0 0 true).2 = 1 ∧
     (Elas_IsotTrans.Behavior2D id 1 1 1 0 0 true).2 *
        (Elas_IsotTrans.Behavior2D id 1 1 1 0 0 true).1 = 1 ∧
     (Elas_IsotTrans.Behavior2D id 1 1 1 0 0 false).1 =
        Elas_IsotTrans.restrict2D (id (Elas_IsotTrans.material_cM 1 1 1 0 0)) ∧
     (Elas_IsotTrans.Behavior2D id 1 1 1 0 0 false).2 =
        (Elas_IsotTrans.restrict2D (id (Elas_IsotTrans.material_cM 1 1 1 0 0)))⁻¹ ∧
     (Elas_IsotTrans.Behavior2D id 1 1 1 0 0 false).1 *
        (Elas_IsotTrans.Behavior2D id 1 1 1 0 0 false).2 = 1 ∧
     (Elas_IsotTrans.Behavior2D id 1 1 1 0 0 false).2 *
        (Elas_IsotTrans.Behavior2D id 1 1 1 0 0 false).1 = 1) := by
  have hS : IsUnit (Elas_IsotTrans.restrict2D
      (id (Elas_IsotTrans.material_sM 1 1 1 0 0))).det := by
    have hd : (Elas_IsotTrans.restrict2D
        (id (Elas_IsotTrans.material_sM 1 1 1 0 0))).det = 1/2 := by
      simp [Elas_IsotTrans.restrict2D, Elas_IsotTrans.idx2D, Elas_IsotTrans.material_sM,
        Elas_IsotTrans.Gt, Matrix.det_fin_three,
        Elas_Isot.consVal6_2, Elas_Isot.consVal6_3, Elas_Isot.consVal6_4, Elas_Isot.consVal6_5, Elas_Isot.consVal5_2, Elas_Isot.consVal5_3,
        Elas_Isot.consVal5_4, Elas_Isot.consVal4_2, Elas_Isot.consVal4_3, Elas_Isot.consVal3_2, Matrix.vecHead, Matrix.vecTail]
      try norm_num
    rw [hd]
    exact isUnit_iff_ne_zero.mpr (by norm_num)
  have hC : IsUnit (Elas_IsotTrans.restrict2D
      (id (Elas_IsotTrans.material_cM 1 1 1 0 0))).det := by
    have hd : (Elas_IsotTrans.restrict2D
        (id (Elas_IsotTrans.material_cM 1 1 1 0 0))).det = 2 := by
      simp [Elas_IsotTrans.restrict2D, Elas_IsotTrans.idx2D, Elas_IsotTrans.material_cM,
        Elas_IsotTrans.Gt, Elas_IsotTrans.kt, Matrix.det_fin_three,
        Elas_Isot.consVal6_2, Elas_Isot.consVal6_3, Elas_Isot.consVal6_4, Elas_Isot.consVal6_5, Elas_Isot.consVal5_2, Elas_Isot.consVal5_3,
        Elas_Isot.consVal5_4, Elas_Isot.consVal4_2, Elas_Isot.consVal4_3, Elas_Isot.consVal3_2, Matrix.vecHead, Matrix.vecTail]
      try norm_num
    rw [hd]
    exact isUnit_iff_ne_zero.mpr (by norm_num)
  exact ⟨hS, hC, elasIsotTrans_2D_reduction id 1 1 1 0 0 hS hC⟩

-- ------------------------------------------------------------------
-- Axis orthogonality check of Elas_IsotTrans.__init__ / Elas_Anisot.__init__
-- ------------------------------------------------------------------

/-- The dot product `axis1 @ axis2` of the two 3-vector material axes. -/
def axisDot (a b : Fin 3 → ℚ) : ℚ := ∑ i, a i * b i

/-- The tolerance 1e-12 of the axis assert. -/
def axisTol : ℚ := 1 / 10 ^ 12

/-- The geometric-consistency check shared by `Elas_IsotTrans.__init__` and
`Elas_Anisot.__init__`: `assert axis1 @ axis2 <= 1e-12`; construction proceeds
exactly when this returns true and fails with "axis1 and axis2 must be
perpendicular" otherwise. -/
def axesPerpendicularCheck (a b : Fin 3 → ℚ) : Bool := decide (axisDot a b ≤ axisTol)

/-- C6 counterexample: the axes (1,0,0) and (-1,0,0) have dot product -1,
which differs from zero by far more than 1e-12 (the axes are anti-parallel,
maximally non-orthogonal), yet the signed check `axis1 @ axis2 <= 1e-12`
returns true, so `Elas_Anisot` and `Elas_IsotTrans` construction succeeds
instead of failing. -/
theorem axisCheck_accepts_antiparallel :
    |axisDot ![1, 0, 0] ![-1, 0, 0]| > axisTol ∧
    axesPerpendicularCheck ![1, 0, 0] ![-1, 0, 0] = true := by
  constructor
  · norm_num [axisDot, Fin.sum_univ_three, axisTol]
  · simp only [axesPerpendicularCheck, decide_eq_true_iff]
    norm_num [axisDot, Fin.sum_univ_three, axisTol]

/-- C6 amended: construction fails precisely when the signed dot product of
the two axes exceeds 1e-12; every pair with dot product at most 1e-12 is
accepted, including strongly non-orthogonal pairs with negative dot product. -/
theorem axisCheck_fails_iff_signed_dot_exceeds_tol :
    ∀ a b : Fin 3 → ℚ, axesPerpendicularCheck a b = false ↔ axisTol < axisDot a b := by
  intro a b
  simp [axesPerpendicularCheck, not_le]

-- ------------------------------------------------------------------
-- Elas_Isot setters and the _Elas.planeStress setter as a state machine
-- ------------------------------------------------------------------

/-- The mutable state of an elastic-law instance: parameters E and v, the 2D
simplification flag, the cached Kelvin-Mandel matrices C and S, and the
staleness flag (`needUpdate`). ℚ stands in for the float parameters. -/
structure ElasIsotState where
  E : ℚ
  v : ℚ
  planeStress : Bool
  C : Matrix (Fin 6) (Fin 6) ℚ
  S : Matrix (Fin 6) (Fin 6) ℚ
  needUpdate : Bool

/-- Modelled from the spec: `_Test_Sup0` (from `_utils`, outside the excerpt)
asserts its argument is strictly positive. -/
def test_Sup0 (value : ℚ) : Bool := decide (0 < value)

/-- Modelled from the spec: `_Test_In` (from `_utils`, outside the excerpt)
asserts its argument lies in the admissible Poisson range ]-1; 0.5]. -/
def test_In (value : ℚ) : Bool := decide (-1 < value ∧ value ≤ 1/2)

/-- The E setter of `Elas_Isot`: `_Test_Sup0(value); Need_Update(); __E = value`.
An assert failure raises before any mutation, so on failure the state handed
back with the error is the unchanged input state. -/
def setE (st : ElasIsotState) (value : ℚ) : ElasIsotState × Option String :=
  if test_Sup0 value then ({ st with needUpdate := true, E := value }, none)
  else (st, some "Must be greater than 0")

/-- The v setter of `Elas_Isot`: `_Test_In(value); Need_Update(); __v = value`. -/
def setV (st : ElasIsotState) (value : ℚ) : ElasIsotState × Option String :=
  if test_In value then ({ st with needUpdate := true, v := value }, none)
  else (st, some "parameter out of domain")

/-- C7: assigning E' ≤ 0 to the E setter, or a v' outside ]-1; 0.5] to the v
setter, raises a parameter-out-of-domain error, and after the failed
assignment the stored E, the stored v, and the cached C and S matrices are
unchanged. -/
theorem elasIsot_setters_reject_and_preserve (st : ElasIsotState) (e vv : ℚ)
    (he : e ≤ 0) (hv : vv ≤ -1 ∨ 1/2 < vv) :
    (setE st e).2.isSome = true ∧ (setE st e).1 = st ∧
    (setE st e).1.E = st.E ∧ (setE st e).1.v = st.v ∧
    (setE st e).1.C = st.C ∧ (setE st e).1.S = st.S ∧
    (setV st vv).2.isSome = true ∧ (setV st vv).1 = st ∧
    (setV st vv).1.E = st.E ∧ (setV st vv).1.v = st.v ∧
    (setV st vv).1.C = st.C ∧ (setV st vv).1.S = st.S := by
  have h1 : test_Sup0 e = false := by
    simp only [test_Sup0, decide_eq_false_iff_not, not_lt]
    exact he
  have h2 : test_In vv = false := by
    simp only [test_In, decide_eq_false_iff_not, not_and_or, not_lt, not_le]
    rcases hv with h | h
    · exact Or.inl h
    · exact Or.inr h
  simp [setE, setV, h1, h2]

/-- C7 witness: the setter theorem at a concrete state with E' = 0 and v' = 2. -/
theorem elasIsot_setters_reject_and_preserve_witness :
    (0:ℚ) ≤ 0 ∧ ((2:ℚ) ≤ -1 ∨ (1:ℚ)/2 < 2) ∧
    ((setE ⟨1, 3/10, true, 0, 0, false⟩ 0).2.isSome = true ∧
     (setE ⟨1, 3/10, true, 0, 0, false⟩ 0).1 = ⟨1, 3/10, true, 0, 0, false⟩ ∧
     (setE ⟨1, 3/10, true, 0, 0, false⟩ 0).1.E = (⟨1, 3/10, true, 0, 0, false⟩ : ElasIsotState).E ∧
     (setE ⟨1, 3/10, true, 0, 0, false⟩ 0).1.v = (⟨1, 3/10, true, 0, 0, false⟩ : ElasIsotState).v ∧
     (setE ⟨1, 3/10, true, 0, 0, false⟩ 0).1.C = (⟨1, 3/10, true, 0, 0, false⟩ : ElasIsotState).C ∧
     (setE ⟨1, 3/10, true, 0, 0, false⟩ 0).1.S = (⟨1, 3/10, true, 0, 0, false⟩ : ElasIsotState).S ∧
     (setV ⟨1, 3/10, true, 0, 0, false⟩ 2).2.isSome = true ∧
     (setV ⟨1, 3/10, true, 0, 0, false⟩ 2).1 = ⟨1, 3/10, true, 0, 0, false⟩ ∧
     (setV ⟨1, 3/10, true, 0, 0, false⟩ 2).1.E = (⟨1, 3/10, true, 0, 0, false⟩ : ElasIsotState).E ∧
     (setV ⟨1, 3/10, true, 0, 0, false⟩ 2).1.v = (⟨1, 3/10, true, 0, 0, false⟩ : ElasIsotState).v ∧
     (setV ⟨1, 3/10, true, 0, 0, false⟩ 2).1.C = (⟨1, 3/10, true, 0, 0, false⟩ : ElasIsotState).C ∧
     (setV ⟨1, 3/10, true, 0, 0, false⟩ 2).1.S = (⟨1, 3/10, true, 0, 0, false⟩ : ElasIsotState).S) :=
  ⟨le_refl 0, Or.inr (by norm_num),
   elasIsot_setters_reject_and_preserve ⟨1, 3/10, true, 0, 0, false⟩ 0 2
     (le_refl 0) (Or.inr (by norm_num))⟩

/-- A dynamically-typed Python value, as far as the planeStress setter cares:
a bool, or a non-bool value such as an int, a float or a string. -/
inductive PyVal where
  | bool (b : Bool)
  | int (n : ℤ)
  | float (q : ℚ)
  | str (s : String)

/-- `isinstance(value, bool)`. -/
def PyVal.isBool : PyVal → Bool
  | .bool _ => true
  | _ => false

/-- The planeStress setter of `_Elas`: only when the value is a bool does it
mark the law stale (when the flag actually changes) and store the value; any
other value is silently ignored with no error. -/
def setPlaneStress (st : ElasIsotState) (value : PyVal) : ElasIsotState :=
  match value with
  | .bool b =>
    if st.planeStress != b then { st with planeStress := b, needUpdate := true }
    else { st with planeStress := b }
  | _ => st

/-- C10: assigning a non-bool value to the planeStress setter raises no error
(the setter is total, with no failure path), leaves the planeStress flag
unchanged, and does not mark the cached C/S matrices stale: the whole state is
untouched. -/
theorem planeStress_setter_ignores_non_bool (st : ElasIsotState) (value : PyVal)
    (h : value.isBool = false) :
    setPlaneStress st value = st ∧
    (setPlaneStress st value).planeStress = st.planeStress ∧
    (setPlaneStress st value).needUpdate = st.needUpdate := by
  cases value with
  | bool b => simp [PyVal.isBool] at h
  | int n => exact ⟨rfl, rfl, rfl⟩
  | float q => exact ⟨rfl, rfl, rfl⟩
  | str s => exact ⟨rfl, rfl, rfl⟩

/-- C10 witness: the planeStress setter applied to the int value 5. -/
theorem planeStress_setter_ignores_non_bool_witness :
    (PyVal.int 5).isBool = false ∧
    (setPlaneStress ⟨1, 3/10, true, 0, 0, false⟩ (PyVal.int 5) =
        ⟨1, 3/10, true, 0, 0, false⟩ ∧
     (setPlaneStress ⟨1, 3/10, true, 0, 0, false⟩ (PyVal.int 5)).planeStress =
        (⟨1, 3/10, true, 0, 0, false⟩ : ElasIsotState).planeStress ∧
     (setPlaneStress ⟨1, 3/10, true, 0, 0, false⟩ (PyVal.int 5)).needUpdate =
        (⟨1, 3/10, true, 0, 0, false⟩ : ElasIsotState).needUpdate) :=
  ⟨rfl, planeStress_setter_ignores_non_bool ⟨1, 3/10, true, 0, 0, false⟩ (PyVal.int 5) rfl⟩
